import Mathlib

/-!
Verification of the Hypixel-Skyblock-Quant data-collection pipeline.

Shallow embedding of `src/data/collectors.py`, `src/data/models.py` and
`src/scripts/collect_bazaar_data.py` / `collect_full_bazaar_history.py`.

Modelling conventions:
* Python values appearing in JSON entries and ORM columns are modelled by
  `PyVal`.  ISO-8601 datetime strings are abstracted: an instant is a `Nat`,
  `PyVal.pisostr t` is the canonical ISO encoding of instant `t`
  (the image of `datetime.isoformat`), and `PyVal.pstr` is an opaque string
  literal that is neither a valid ISO datetime nor a numeric literal.
* A Python dict is an association list `List (String × PyVal)` looked up with
  `pyFind` / `pyGet` (modelling `dict.get`, first binding wins).
* Exceptions are modelled with `Except PyErr`; the relevant Python exception
  classes are the constructors of `PyErr`.
* The SQLAlchemy session is modelled by explicit state: `Db` is the committed
  table, `SessionState` records the pending (un-committed) adds and whether
  the session was closed.  `commit` either moves pending rows into the table
  or fails (`commitOk = false` models a database-level commit failure);
  `close` without commit discards pending rows.
* Network fetches are modelled as already-resolved values (an `ApiResponse`
  for the snapshot endpoint, a `String → Except PyErr (List RawEntry)`
  function for the per-item history endpoint).
-/

/-- Model of runtime Python values flowing through the collector. -/
inductive PyVal where
  | pnone : PyVal
  | pint : Int → PyVal
  | pfloat : Rat → PyVal
  | pstr : String → PyVal
  | pisostr : Nat → PyVal
  | pdatetime : Nat → PyVal
deriving DecidableEq, Repr

/-- Model of the Python exception classes raised in the collector. -/
inductive PyErr where
  | keyError : PyErr
  | valueError : PyErr
  | typeError : PyErr
  | dbError : PyErr
  | transportError : PyErr
  | protocolError : PyErr
deriving DecidableEq, Repr

/-- A raw JSON entry: a Python dict. -/
abbrev RawEntry : Type := List (String × PyVal)

/-- Dict key lookup (`k in d` / `d[k]`): first binding wins, `none` if the
key is absent. -/
def pyFind (e : RawEntry) (k : String) : Option PyVal :=
  match e with
  | [] => none
  | (a, v) :: rest => if a == k then some v else pyFind rest k

/-- Python `dict.get(k, d)`: the bound value when the key is present
(even when bound to `None`), else the default. -/
def pyGet (e : RawEntry) (k : String) (d : PyVal) : PyVal :=
  (pyFind e k).getD d

/-- Model of `dateutil.parser.isoparse`: succeeds exactly on canonical ISO
datetime strings, raises `ValueError` on other strings, `TypeError` on
non-string arguments (as the real function does on ints, `None`, ...). -/
def isoparse : PyVal → Except PyErr PyVal
  | .pisostr t => .ok (.pdatetime t)
  | .pstr _ => .error .valueError
  | _ => .error .typeError

/-- Model of Python `float(x)`: numbers convert, opaque strings raise
`ValueError`, `None`/datetime raise `TypeError`. -/
def pyFloat : PyVal → Except PyErr PyVal
  | .pfloat q => .ok (.pfloat q)
  | .pint n => .ok (.pfloat (n : Rat))
  | .pstr _ => .error .valueError
  | .pisostr _ => .error .valueError
  | .pnone => .error .typeError
  | .pdatetime _ => .error .typeError

/-- Model of Python `int(x)` (float truncation direction is irrelevant to
every claim). -/
def pyInt : PyVal → Except PyErr PyVal
  | .pint n => .ok (.pint n)
  | .pfloat q => .ok (.pint (q.num / q.den))
  | .pstr _ => .error .valueError
  | .pisostr _ => .error .valueError
  | .pnone => .error .typeError
  | .pdatetime _ => .error .typeError

/-- One row of the `bazaar_items` table (`BazaarItem` in `models.py`).
A field holds `none` when the column was never assigned (NULL), and
`some v` when assigned value `v` (which may itself be the Python `None`,
i.e. SQL NULL, via `PyVal.pnone`). -/
structure Row where
  item_id : Option PyVal
  timestamp : Option PyVal
  buy_price : Option PyVal
  sell_price : Option PyVal
  max_buy : Option PyVal
  max_sell : Option PyVal
  min_buy : Option PyVal
  min_sell : Option PyVal
  buy_volume : Option PyVal
  sell_volume : Option PyVal
deriving DecidableEq, Repr

/-- The committed `bazaar_items` table. -/
structure Db where
  rows : List Row
deriving DecidableEq, Repr

/-- Final state of one SQLAlchemy session: pending (added, un-committed)
rows and whether the session was closed. -/
structure SessionState where
  pending : List Row
  closed : Bool
deriving DecidableEq, Repr

/-- The mapped attribute names of the `BazaarItem` declarative model
(`models.py` lines 13-23).  Note: no `buy_moving_week` / `sell_moving_week`. -/
def bazaarItemColumns : List String :=
  ["id", "item_id", "timestamp", "buy_price", "sell_price",
   "max_buy", "max_sell", "min_buy", "min_sell", "buy_volume", "sell_volume"]

/-- Keyword-argument lookup in a constructed kwargs list. -/
def kwLookup (kwargs : List (String × PyVal)) (k : String) : Option PyVal :=
  (kwargs.find? (fun p => p.1 == k)).map (fun p => p.2)

/-- Model of the SQLAlchemy declarative constructor `BazaarItem(**kwargs)`:
raises `TypeError` when a keyword is not a mapped attribute, otherwise
assigns exactly the given columns (unassigned columns stay NULL). -/
def mkBazaarItem (kwargs : List (String × PyVal)) : Except PyErr Row :=
  if kwargs.all (fun p => bazaarItemColumns.contains p.1) then
    .ok { item_id := kwLookup kwargs "item_id"
          timestamp := kwLookup kwargs "timestamp"
          buy_price := kwLookup kwargs "buy_price"
          sell_price := kwLookup kwargs "sell_price"
          max_buy := kwLookup kwargs "max_buy"
          max_sell := kwLookup kwargs "max_sell"
          min_buy := kwLookup kwargs "min_buy"
          min_sell := kwLookup kwargs "min_sell"
          buy_volume := kwLookup kwargs "buy_volume"
          sell_volume := kwLookup kwargs "sell_volume" }
  else .error .typeError

/-- The buy-price source expression of `store_historical_data`
(`collectors.py` line 201): `entry.get('buy', entry.get('buyPrice', 0))`. -/
def histBuyRaw (entry : RawEntry) : PyVal :=
  pyGet entry "buy" (pyGet entry "buyPrice" (.pint 0))

/-- The sell-price source expression of `store_historical_data`
(`collectors.py` line 202): `entry.get('sell', entry.get('sellPrice', 0))`. -/
def histSellRaw (entry : RawEntry) : PyVal :=
  pyGet entry "sell" (pyGet entry "sellPrice" (.pint 0))

/-- The timestamp source expression of `store_historical_data`
(`collectors.py` line 196):
`entry.get('timestamp', datetime.utcnow().isoformat())`, where `now` is the
current instant. -/
def histTimestampVal (now : Nat) (entry : RawEntry) : PyVal :=
  pyGet entry "timestamp" (.pisostr now)

/-- The per-entry body of `store_historical_data` up to and including the
evaluation of the `BazaarItem(...)` argument expressions
(`collectors.py` lines 196-206), in source evaluation order. -/
def histEntryKwargs (now : Nat) (item_id : String) (entry : RawEntry) :
    Except PyErr (List (String × PyVal)) :=
  match isoparse (histTimestampVal now entry) with
  | .error e => .error e
  | .ok timestamp =>
    match pyFloat (histBuyRaw entry) with
    | .error e => .error e
    | .ok bp =>
      match pyFloat (histSellRaw entry) with
      | .error e => .error e
      | .ok sp =>
        match pyInt (pyGet entry "buyVolume" (.pint 0)) with
        | .error e => .error e
        | .ok bv =>
          match pyInt (pyGet entry "sellVolume" (.pint 0)) with
          | .error e => .error e
          | .ok sv =>
            match pyInt (pyGet entry "buyMovingWeek" (.pint 0)) with
            | .error e => .error e
            | .ok bmw =>
              match pyInt (pyGet entry "sellMovingWeek" (.pint 0)) with
              | .error e => .error e
              | .ok smw =>
                .ok [("item_id", .pstr item_id), ("timestamp", timestamp),
                     ("buy_price", bp), ("sell_price", sp),
                     ("buy_volume", bv), ("sell_volume", sv),
                     ("buy_moving_week", bmw), ("sell_moving_week", smw)]

/-- The full per-entry body of `store_historical_data`: evaluate the
arguments, then call the `BazaarItem` constructor
(`collectors.py` lines 196-207). -/
def histEntryToRow (now : Nat) (item_id : String) (entry : RawEntry) :
    Except PyErr Row :=
  match histEntryKwargs now item_id entry with
  | .error e => .error e
  | .ok kwargs => mkBazaarItem kwargs

/-- The entry loop of `store_historical_data` (`collectors.py` lines
193-215): `KeyError` / `ValueError` from an entry are caught and the entry
skipped; any other exception propagates.  Returns the pending (added) rows
and the `count` variable. -/
def storeHistLoop (now : Nat) (item_id : String) :
    List RawEntry → List Row → Nat → Except PyErr (List Row × Nat)
  | [], pending, count => .ok (pending, count)
  | entry :: rest, pending, count =>
    match histEntryToRow now item_id entry with
    | .ok row => storeHistLoop now item_id rest (pending ++ [row]) (count + 1)
    | .error .keyError => storeHistLoop now item_id rest pending count
    | .error .valueError => storeHistLoop now item_id rest pending count
    | .error e => .error e

/-- `BazaarDataCollector.store_historical_data` (`collectors.py` lines
187-223): one session, loop over the entries, one commit, `finally: close`.
The returned `Except` holds the Python return value (`PyVal.pnone`, since
the function has no `return` statement) or the propagated exception;
the final `Db` is the committed table and `SessionState` the session's
final state.  `commitOk = false` models a database failure at `db.commit()`. -/
def storeHistoricalData (now : Nat) (commitOk : Bool)
    (historical_data : List RawEntry) (item_id : String) (db : Db) :
    Db × Except PyErr PyVal × SessionState :=
  match storeHistLoop now item_id historical_data [] 0 with
  | .error e => (db, .error e, { pending := [], closed := true })
  | .ok (pending, _count) =>
    if commitOk then
      ({ rows := db.rows ++ pending }, .ok .pnone, { pending := [], closed := true })
    else
      (db, .error .dbError, { pending := [], closed := true })

/-- Upstream snapshot response (`api.hypixel.net/v2/skyblock/bazaar`):
HTTP status, the `success` flag, and the `products` mapping.  Each product
is modelled by its optional `quick_status` dict
(`product_data.get('quick_status', {})` is the only access the code makes;
an absent `quick_status` behaves like an empty dict). -/
structure ApiResponse where
  status : Nat
  success : Bool
  products : List (String × Option (List (String × PyVal)))
deriving DecidableEq, Repr

/-- The per-product price dict built by `get_current_prices`
(`collectors.py` lines 53-60). -/
def quickPrices (qs : List (String × PyVal)) : RawEntry :=
  [("sell_price", pyGet qs "sellPrice" (.pfloat 0)),
   ("sell_volume", pyGet qs "sellVolume" (.pint 0)),
   ("sell_moving_week", pyGet qs "sellMovingWeek" (.pint 0)),
   ("buy_price", pyGet qs "buyPrice" (.pfloat 0)),
   ("buy_volume", pyGet qs "buyVolume" (.pint 0)),
   ("buy_moving_week", pyGet qs "buyMovingWeek" (.pint 0))]

/-- The product loop of `get_current_prices` (`collectors.py` lines 49-60):
products with a missing or empty (falsy) `quick_status` are skipped. -/
def buildPrices : List (String × Option (List (String × PyVal))) →
    List (String × RawEntry)
  | [] => []
  | (pid, pd) :: rest =>
    if (pd.getD []).isEmpty then buildPrices rest
    else (pid, quickPrices (pd.getD [])) :: buildPrices rest

/-- `BazaarDataCollector.get_current_prices` (`collectors.py` lines 31-65):
fails on a non-200 status or a false `success` flag, otherwise returns the
prices mapping. -/
def getCurrentPrices (resp : ApiResponse) : Except PyErr (List (String × RawEntry)) :=
  if resp.status ≠ 200 then .error .transportError
  else if !resp.success then .error .protocolError
  else .ok (buildPrices resp.products)

/-- The per-item `BazaarItem(...)` construction of
`collect_and_store_current_data` (`collectors.py` lines 162-173):
`timestamp=datetime.utcnow()` and `item_data.get(field, 0)` for every
numeric column. -/
def snapshotItemRow (now : Nat) (item_id : String) (item_data : RawEntry) :
    Except PyErr Row :=
  mkBazaarItem
    [("item_id", .pstr item_id), ("timestamp", .pdatetime now),
     ("buy_price", pyGet item_data "buy_price" (.pint 0)),
     ("sell_price", pyGet item_data "sell_price" (.pint 0)),
     ("max_buy", pyGet item_data "max_buy" (.pint 0)),
     ("max_sell", pyGet item_data "max_sell" (.pint 0)),
     ("min_buy", pyGet item_data "min_buy" (.pint 0)),
     ("min_sell", pyGet item_data "min_sell" (.pint 0)),
     ("buy_volume", pyGet item_data "buy_volume" (.pint 0)),
     ("sell_volume", pyGet item_data "sell_volume" (.pint 0))]

/-- The item loop of `collect_and_store_current_data` (`collectors.py`
lines 161-174): every record is added, with no per-entry exception
handler. -/
def snapLoop (now : Nat) :
    List (String × RawEntry) → List Row → Except PyErr (List Row)
  | [], pending => .ok pending
  | (pid, item_data) :: rest, pending =>
    match snapshotItemRow now pid item_data with
    | .ok row => snapLoop now rest (pending ++ [row])
    | .error e => .error e

/-- `BazaarDataCollector.collect_and_store_current_data` (`collectors.py`
lines 152-185): fetch, then one session, add every record, one commit,
`finally: close`.  The session state is `none` when the fetch failed
before a session was created; on success the Python return value is the
prices mapping. -/
def collectAndStoreCurrentData (now : Nat) (commitOk : Bool)
    (resp : ApiResponse) (db : Db) :
    Db × Except PyErr (List (String × RawEntry)) × Option SessionState :=
  match getCurrentPrices resp with
  | .error e => (db, .error e, none)
  | .ok data =>
    match snapLoop now data [] with
    | .error e => (db, .error e, some { pending := [], closed := true })
    | .ok pending =>
      if commitOk then
        ({ rows := db.rows ++ pending }, .ok data, some { pending := [], closed := true })
      else
        (db, .error .dbError, some { pending := [], closed := true })

/-- The item-id injection of `get_item_history` (`collectors.py` lines
92-94): `if 'item_id' not in entry: entry['item_id'] = item_id`. -/
def injectOne (item_id : String) (entry : RawEntry) : RawEntry :=
  if (pyFind entry "item_id").isSome then entry
  else entry ++ [("item_id", .pstr item_id)]

/-- `BazaarDataCollector.get_item_history` after the fetch resolved
(`collectors.py` lines 81-96): injects the requested `item_id` into every
entry that lacks one; a transport failure propagates. -/
def getItemHistory (item_id : String)
    (fetched : Except PyErr (List RawEntry)) : Except PyErr (List RawEntry) :=
  fetched.map (List.map (injectOne item_id))

/-- The per-entry dict built by `collect_full_history` (`collectors.py`
lines 125-136): a missing timestamp is replaced by the placeholder string
`N/A`, never dropped. -/
def fullHistoryEntry (item : String) (entry : RawEntry) : RawEntry :=
  [("timestamp", pyGet entry "timestamp" (.pstr "N/A")),
   ("item_id", .pstr item),
   ("max_buy", pyGet entry "maxBuy" (.pint 0)),
   ("max_sell", pyGet entry "maxSell" (.pint 0)),
   ("min_buy", pyGet entry "minBuy" (.pint 0)),
   ("min_sell", pyGet entry "minSell" (.pint 0)),
   ("buy", pyGet entry "buy" (.pint 0)),
   ("sell", pyGet entry "sell" (.pint 0)),
   ("buy_volume", pyGet entry "buyVolume" (.pint 0)),
   ("sell_volume", pyGet entry "sellVolume" (.pint 0))]

/-- Outcome of one item of the backfill loop in
`collect_full_bazaar_history.py` (lines 18-25). -/
inductive ItemOutcome where
  | fetchFailed : String → ItemOutcome
  | storeFailed : String → ItemOutcome
  | stored : String → ItemOutcome
deriving DecidableEq, Repr

/-- The per-item loop of `collect_full_bazaar_history`
(`collect_full_bazaar_history.py` lines 18-25): fetch one item's history
(`get_item_history`), store it (`store_historical_data`); any exception
from either call is caught at the item boundary and the loop continues
with the next item.  `fetch` is the resolved history endpoint. -/
def processItems (fetch : String → Except PyErr (List RawEntry))
    (now : Nat) (commitOk : Bool) :
    List String → Db → Db × List ItemOutcome
  | [], db => (db, [])
  | item :: rest, db =>
    match getItemHistory item (fetch item) with
    | .error _ =>
      match processItems fetch now commitOk rest db with
      | (db2, outs) => (db2, .fetchFailed item :: outs)
    | .ok data =>
      match storeHistoricalData now commitOk data item db with
      | (db1, .ok _, _) =>
        match processItems fetch now commitOk rest db1 with
        | (db2, outs) => (db2, .stored item :: outs)
      | (db1, .error _, _) =>
        match processItems fetch now commitOk rest db1 with
        | (db2, outs) => (db2, .storeFailed item :: outs)

/-- Scheduler trace events: one collection cycle is `start i ... fin i`
(the cycle runs to completion because `collect_data` swallows every
exception and the shutdown flag is only a cooperative flag), `wait i` is
the `asyncio.sleep(COLLECTION_INTERVAL)` phase after cycle `i`. -/
inductive Ev where
  | start : Nat → Ev
  | fin : Nat → Ev
  | wait : Nat → Ev
deriving DecidableEq, Repr

/-- The iteration index an event belongs to. -/
def evIdx : Ev → Nat
  | .start i => i
  | .fin i => i
  | .wait i => i

/-- `DataCollectionService.run` (`collect_bazaar_data.py` lines 29-47) as a
fuel-bounded trace generator.  `sigC i` (resp. `sigW i`) is true when a
shutdown signal arrives during cycle `i` (resp. during wait `i`); the
handler only clears `is_running`, it never interrupts the phase itself.
The returned Bool is `true` iff the while-loop exited through its own
condition (the service reached the stopped state) rather than by fuel
exhaustion. -/
def runLoop (interval : Nat) (sigC sigW : Nat → Bool) :
    Nat → Nat → Bool → List Ev × Bool
  | 0, _, running => ([], !running)
  | fuel + 1, i, running =>
    if running then
      if 0 < interval then
        ((Ev.start i) :: (Ev.fin i) :: (Ev.wait i) ::
            (runLoop interval sigC sigW fuel (i + 1) (!sigC i && !sigW i)).1,
         (runLoop interval sigC sigW fuel (i + 1) (!sigC i && !sigW i)).2)
      else
        ((Ev.start i) :: (Ev.fin i) ::
            (runLoop interval sigC sigW fuel (i + 1) false).1,
         (runLoop interval sigC sigW fuel (i + 1) false).2)
    else ([], true)

/-- The service entry point: `is_running = True`, then the while-loop. -/
def runService (interval : Nat) (sigC sigW : Nat → Bool) (fuel : Nat) :
    List Ev × Bool :=
  runLoop interval sigC sigW fuel 0 true

/-- A signal schedule with no signal at all. -/
def noSig : Nat → Bool := fun _ => false

/-- A signal schedule delivering one signal during wait 0. -/
def sigW0 : Nat → Bool := fun k => k == 0

/-- The history fetch used in the C7 failing-input evaluation: item `A`
fails with a transport error, item `B` returns one (empty) history entry. -/
def fetchAB : String → Except PyErr (List RawEntry) :=
  fun item => if item == "A" then .error .transportError else .ok [([] : RawEntry)]

/-- A concrete history entry with both price conventions present:
`buy = 1.0` and `buyPrice = 2.0`. -/
def bothBuyFieldsEntry : RawEntry :=
  [("buy", PyVal.pfloat 1), ("buyPrice", PyVal.pfloat 2)]

/-- A concrete history entry carrying no `timestamp` and no `item_id`. -/
def histWitnessEntry : RawEntry :=
  [("buy", PyVal.pfloat 3), ("sell", PyVal.pfloat 2),
   ("buyVolume", PyVal.pint 1), ("sellVolume", PyVal.pint 1),
   ("buyMovingWeek", PyVal.pint 4), ("sellMovingWeek", PyVal.pint 5)]

/-- The kwargs `store_historical_data` builds for `histWitnessEntry` at
instant 5 for item `ITEM_X`. -/
def histWitnessKwargs : List (String × PyVal) :=
  [("item_id", .pstr "ITEM_X"), ("timestamp", .pdatetime 5),
   ("buy_price", .pfloat 3), ("sell_price", .pfloat 2),
   ("buy_volume", .pint 1), ("sell_volume", .pint 1),
   ("buy_moving_week", .pint 4), ("sell_moving_week", .pint 5)]

/-- A concrete snapshot response whose only product carries an explicit
JSON `null` for `buyPrice` inside `quick_status`. -/
def respNullBuyPrice : ApiResponse :=
  { status := 200, success := true,
    products := [("ITEM_X", some [("buyPrice", PyVal.pnone)])] }

/-- Every history entry fails to become a `BazaarItem`: either one of the
argument conversions raises, or the constructor itself raises `TypeError`
because `buy_moving_week` / `sell_moving_week` are not mapped columns. -/
theorem histEntryToRow_err (now : Nat) (item_id : String) (entry : RawEntry) :
    ∃ err, histEntryToRow now item_id entry = .error err := by
  unfold histEntryToRow histEntryKwargs
  cases isoparse (histTimestampVal now entry) with
  | error e => exact ⟨e, rfl⟩
  | ok timestamp =>
    cases pyFloat (histBuyRaw entry) with
    | error e => exact ⟨e, rfl⟩
    | ok bp =>
      cases pyFloat (histSellRaw entry) with
      | error e => exact ⟨e, rfl⟩
      | ok sp =>
        cases pyInt (pyGet entry "buyVolume" (.pint 0)) with
        | error e => exact ⟨e, rfl⟩
        | ok bv =>
          cases pyInt (pyGet entry "sellVolume" (.pint 0)) with
          | error e => exact ⟨e, rfl⟩
          | ok sv =>
            cases pyInt (pyGet entry "buyMovingWeek" (.pint 0)) with
            | error e => exact ⟨e, rfl⟩
            | ok bmw =>
              cases pyInt (pyGet entry "sellMovingWeek" (.pint 0)) with
              | error e => exact ⟨e, rfl⟩
              | ok smw => exact ⟨.typeError, rfl⟩

/-- The entry loop of `store_historical_data` either skips every entry
(leaving the pending rows and count unchanged) or propagates an
exception. -/
theorem storeHistLoop_cases (now : Nat) (item_id : String) :
    ∀ (data : List RawEntry) (pending : List Row) (count : Nat),
      storeHistLoop now item_id data pending count = .ok (pending, count) ∨
      ∃ err, storeHistLoop now item_id data pending count = .error err := by
  intro data
  induction data with
  | nil => intro pending count; exact .inl rfl
  | cons entry rest ih =>
    intro pending count
    obtain ⟨err, herr⟩ := histEntryToRow_err now item_id entry
    cases err <;> simp only [storeHistLoop, herr] <;>
      first
        | exact ih pending count
        | exact .inr ⟨_, rfl⟩

/-- Claim C2 (counterexample): the claim says `store_historical_data`
raises before committing for EVERY non-empty batch, but a non-empty batch
whose only entry carries an unparseable (opaque) timestamp string is
skipped by the caught `ValueError`, after which the call commits (an empty
transaction) and returns normally — no exception is raised. -/
theorem c2_counterexample_skipped_batch_returns_normally :
    storeHistoricalData 0 true [[("timestamp", PyVal.pstr "garbage")]] "ITEM_X" ⟨[]⟩ =
      (⟨[]⟩, .ok .pnone, ⟨[], true⟩) := by
  rfl

/-- Claim C2 (amended): the history-store path never writes a row, for any
batch: each entry is either skipped by the caught `ValueError` from its
timestamp/number conversions, or reaches the `BazaarItem` construction
whose `buy_moving_week` / `sell_moving_week` keywords are not columns of
the model, raising a `TypeError` that the `KeyError`/`ValueError` handlers
do not catch and that aborts the call before the commit.  In every case
the committed table is unchanged. -/
theorem c2_history_store_never_writes_rows (now : Nat) (commitOk : Bool)
    (historical_data : List RawEntry) (item_id : String) (db : Db) :
    (storeHistoricalData now commitOk historical_data item_id db).1 = db := by
  unfold storeHistoricalData
  rcases storeHistLoop_cases now item_id historical_data [] 0 with h | ⟨err, h⟩ <;>
    rw [h]
  cases commitOk <;> simp

/-- Claim C1 (code bug, evaluation at the failing input): on the batch
`[{}]` (one entry, an empty dict) `store_historical_data` raises
`TypeError` from the `BazaarItem` construction — the `buy_moving_week` /
`sell_moving_week` keywords are not columns — before adding any record or
issuing a commit.  The committed table is unchanged (no partial batch is
visible) and the session is closed with nothing pending, but contrary to
the claim no record of the batch was ever added and no commit was issued. -/
theorem c1_store_raises_on_singleton_batch :
    storeHistoricalData 0 true [([] : RawEntry)] "ITEM_X" ⟨[]⟩ =
      (⟨[]⟩, .error .typeError, ⟨[], true⟩) := by
  rfl

/-- Claim C10 (counterexample): the claim says the value returned by
`store_historical_data` equals the number of rows written; on the empty
batch the call commits zero rows yet returns Python `None` (the function
has no `return` statement), and `None` is not the count `0`. -/
theorem c10_counterexample_returns_none_not_count :
    storeHistoricalData 0 true [] "ITEM_X" ⟨[]⟩ = (⟨[]⟩, .ok .pnone, ⟨[], true⟩) ∧
      PyVal.pnone ≠ PyVal.pint 0 := by
  exact ⟨rfl, by decide⟩

/-- Claim C10 (amended): `store_historical_data` returns no value — every
successful call returns Python `None`; the count of added entries is only
logged, never returned. -/
theorem c10_amended_store_returns_none (now : Nat) (commitOk : Bool)
    (data : List RawEntry) (item_id : String) (db db2 : Db) (r : PyVal)
    (s : SessionState)
    (h : storeHistoricalData now commitOk data item_id db = (db2, .ok r, s)) :
    r = PyVal.pnone := by
  unfold storeHistoricalData at h
  rcases storeHistLoop_cases now item_id data [] 0 with hl | ⟨err, hl⟩ <;>
    rw [hl] at h
  · cases commitOk <;> simp_all
  · simp_all

/-- Witness for the amended C10 theorem at a concrete input. -/
theorem c10_amended_store_returns_none_witness : PyVal.pnone = PyVal.pnone :=
  c10_amended_store_returns_none 0 true [] "ITEM_X" ⟨[]⟩ ⟨[]⟩ .pnone ⟨[], true⟩ rfl

/-- Dict lookup distributes over append when the key is absent on the
left. -/
theorem pyFind_append_of_none (e l : RawEntry) (k : String)
    (h : pyFind e k = none) : pyFind (e ++ l) k = pyFind l k := by
  induction e with
  | nil => rfl
  | cons a rest ih =>
    obtain ⟨x, v⟩ := a
    simp only [List.cons_append, pyFind] at h ⊢
    split at h
    · simp at h
    · rename_i hxk
      rw [if_neg hxk]
      exact ih h

/-- Claim C3 (counterexample): on an entry carrying both `buy = 1.0` and
`buyPrice = 2.0`, `store_historical_data` normalizes the buy price to the
value of the generic `buy` field (1.0), not the value of the more specific
`buyPrice` field, contrary to the claim. -/
theorem c3_counterexample_generic_buy_wins :
    histBuyRaw bothBuyFieldsEntry = .pfloat 1 ∧
      histBuyRaw bothBuyFieldsEntry ≠
        pyGet bothBuyFieldsEntry "buyPrice" (.pint 0) := by
  exact ⟨rfl, by decide⟩

/-- Claim C3 (amended): when a history entry carries both a `buy` and a
`buyPrice` field, normalization prefers the generic `buy` field (using
`buyPrice` only as fallback) and yields a numeric, non-null buy price. -/
theorem c3_amended_buy_over_buyPrice (entry : RawEntry) (b p : Rat)
    (hb : pyFind entry "buy" = some (.pfloat b))
    (_hp : pyFind entry "buyPrice" = some (.pfloat p)) :
    pyFloat (histBuyRaw entry) = .ok (.pfloat b) := by
  unfold histBuyRaw pyGet
  rw [hb]
  rfl

/-- Witness for the amended C3 theorem at a concrete input. -/
theorem c3_amended_buy_over_buyPrice_witness :
    pyFloat (histBuyRaw bothBuyFieldsEntry) = .ok (.pfloat 1) :=
  c3_amended_buy_over_buyPrice bothBuyFieldsEntry 1 2 (by decide) (by decide)

/-- Claim C4 (counterexample): a history-sourced entry with no timestamp
field is NOT rejected.  In `store_historical_data` the default
`datetime.utcnow().isoformat()` is substituted and parses back to the
current instant, and in `collect_full_history` the placeholder string
`N/A` is substituted; in neither path is the entry dropped at the
timestamp step. -/
theorem c4_counterexample_missing_timestamp_not_rejected :
    isoparse (histTimestampVal 5 [("buy", PyVal.pfloat 3)]) =
        .ok (.pdatetime 5) ∧
      pyGet (fullHistoryEntry "ITEM_X" [("buy", PyVal.pfloat 3)]) "timestamp"
          .pnone = .pstr "N/A" := by
  exact ⟨rfl, rfl⟩

/-- Claim C4 (amended): a history-sourced entry that carries no timestamp
field has the current instant substituted (exactly like snapshot-sourced
records) — the timestamp normalization succeeds with `now` and the entry
is not rejected. -/
theorem c4_amended_missing_timestamp_uses_now (now : Nat) (entry : RawEntry)
    (h : pyFind entry "timestamp" = none) :
    isoparse (histTimestampVal now entry) = .ok (.pdatetime now) := by
  unfold histTimestampVal pyGet
  rw [h]
  rfl

/-- Witness for the amended C4 theorem at a concrete input. -/
theorem c4_amended_missing_timestamp_uses_now_witness :
    isoparse (histTimestampVal 7 histWitnessEntry) = .ok (.pdatetime 7) :=
  c4_amended_missing_timestamp_uses_now 7 histWitnessEntry (by decide)

/-- Claim C5 (counterexample): the invariant that every numeric field of a
record handed to the store is non-null fails when the upstream
`quick_status` carries an explicit JSON `null`: `dict.get('buyPrice', 0.0)`
returns `None` because the key IS present, and the committed row's
`buy_price` column is NULL. -/
theorem c5_counterexample_explicit_null_stored :
    ((collectAndStoreCurrentData 7 true respNullBuyPrice ⟨[]⟩).1.rows.map
        Row.buy_price) = [some PyVal.pnone] := by
  rfl

/-- Claim C5 (amended): every snapshot record handed to the store has a
non-null `item_id` (the product id) and `timestamp` (the current instant),
construction never raises, and every numeric column is assigned
`item_data.get(field, 0)` — so a numeric field MISSING upstream defaults
to `0`, never to null and never to an error; but an explicitly-null
upstream value passes through unchanged, since the default applies only to
missing keys. -/
theorem c5_amended_snapshot_defaults (now : Nat) (item_id : String)
    (item_data : RawEntry) :
    snapshotItemRow now item_id item_data =
      .ok { item_id := some (.pstr item_id)
            timestamp := some (.pdatetime now)
            buy_price := some (pyGet item_data "buy_price" (.pint 0))
            sell_price := some (pyGet item_data "sell_price" (.pint 0))
            max_buy := some (pyGet item_data "max_buy" (.pint 0))
            max_sell := some (pyGet item_data "max_sell" (.pint 0))
            min_buy := some (pyGet item_data "min_buy" (.pint 0))
            min_sell := some (pyGet item_data "min_sell" (.pint 0))
            buy_volume := some (pyGet item_data "buy_volume" (.pint 0))
            sell_volume := some (pyGet item_data "sell_volume" (.pint 0)) } := by
  rfl

/-- Claim C6 (confirmed): a history entry lacking `item_id` has the
requested item id injected by `get_item_history`, and every record built
by `store_historical_data` binds the `item_id` column to the requested
item (the function argument), for every entry. -/
theorem c6_item_id_injection (item_id : String) (now : Nat)
    (entry : RawEntry) :
    (pyFind entry "item_id" = none →
      pyFind (injectOne item_id entry) "item_id" = some (.pstr item_id)) ∧
    (∀ kwargs, histEntryKwargs now item_id entry = .ok kwargs →
      kwLookup kwargs "item_id" = some (.pstr item_id)) := by
  constructor
  · intro h
    unfold injectOne
    rw [h]
    simp only [Option.isSome_none, Bool.false_eq_true, if_false]
    rw [pyFind_append_of_none entry _ _ h]
    rfl
  · unfold histEntryKwargs
    cases isoparse (histTimestampVal now entry) with
    | error e => intro kwargs hk; exact absurd hk (by simp)
    | ok ts =>
      cases pyFloat (histBuyRaw entry) with
      | error e => intro kwargs hk; exact absurd hk (by simp)
      | ok bp =>
        cases pyFloat (histSellRaw entry) with
        | error e => intro kwargs hk; exact absurd hk (by simp)
        | ok sp =>
          cases pyInt (pyGet entry "buyVolume" (.pint 0)) with
          | error e => intro kwargs hk; exact absurd hk (by simp)
          | ok bv =>
            cases pyInt (pyGet entry "sellVolume" (.pint 0)) with
            | error e => intro kwargs hk; exact absurd hk (by simp)
            | ok sv =>
              cases pyInt (pyGet entry "buyMovingWeek" (.pint 0)) with
              | error e => intro kwargs hk; exact absurd hk (by simp)
              | ok bmw =>
                cases pyInt (pyGet entry "sellMovingWeek" (.pint 0)) with
                | error e => intro kwargs hk; exact absurd hk (by simp)
                | ok smw =>
                  intro kwargs hk
                  injection hk with hk2
                  subst hk2
                  rfl

/-- Witness for the C6 theorem at a concrete input: an entry with no
`item_id` and no timestamp. -/
theorem c6_item_id_injection_witness :
    pyFind (injectOne "ITEM_X" histWitnessEntry) "item_id" =
        some (.pstr "ITEM_X") ∧
      kwLookup histWitnessKwargs "item_id" = some (.pstr "ITEM_X") :=
  ⟨(c6_item_id_injection "ITEM_X" 5 histWitnessEntry).1 rfl,
   (c6_item_id_injection "ITEM_X" 5 histWitnessEntry).2 histWitnessKwargs rfl⟩

/-- Claim C7 (code bug, evaluation at the failing input): in a two-item
backfill where item `A`'s fetch fails with a transport error and item `B`
returns one history entry, the run does not abort and `B` is still
processed after `A`'s failure (both per-item outcomes are reported) — but
no row of `B` is stored: `store_historical_data` raises the
invalid-keyword `TypeError`, which is swallowed at the item boundary, and
the committed table stays empty, contrary to the claim's "processed and
stored". -/
theorem c7_subsequent_items_processed_but_not_stored :
    processItems fetchAB 0 true ["A", "B"] ⟨[]⟩ =
      (⟨[]⟩, [.fetchFailed "A", .storeFailed "B"]) := by
  rfl

/-- A run-loop iteration entered with the running flag cleared produces no
events and stops at once. -/
theorem runLoop_not_running (interval : Nat) (sigC sigW : Nat → Bool)
    (fuel i : Nat) : runLoop interval sigC sigW fuel i false = ([], true) := by
  cases fuel <;> rfl

/-- Every event emitted from iteration `i` onward belongs to an iteration
index at least `i`. -/
theorem runLoop_idx_ge (interval : Nat) (sigC sigW : Nat → Bool) :
    ∀ (fuel i : Nat) (running : Bool) (e : Ev),
      e ∈ (runLoop interval sigC sigW fuel i running).1 → i ≤ evIdx e := by
  intro fuel
  induction fuel with
  | zero =>
    intro i running e h
    simp [runLoop] at h
  | succ f ih =>
    intro i running e h
    cases running with
    | false => simp [runLoop] at h
    | true =>
      by_cases hI : 0 < interval
      · simp only [runLoop, if_pos hI, if_true, List.mem_cons] at h
        rcases h with h | h | h | h
        · subst h; simp [evIdx]
        · subst h; simp [evIdx]
        · subst h; simp [evIdx]
        · have := ih (i + 1) _ e h; omega
      · simp only [runLoop, if_neg hI, if_true, List.mem_cons] at h
        rcases h with h | h | h
        · subst h; simp [evIdx]
        · subst h; simp [evIdx]
        · have := ih (i + 1) _ e h; omega

/-- Every cycle that starts also finishes: the shutdown flag is
cooperative and never aborts the phase in progress. -/
theorem runLoop_start_fin (interval : Nat) (sigC sigW : Nat → Bool) :
    ∀ (fuel i : Nat) (running : Bool) (j : Nat),
      Ev.start j ∈ (runLoop interval sigC sigW fuel i running).1 →
      Ev.fin j ∈ (runLoop interval sigC sigW fuel i running).1 := by
  intro fuel
  induction fuel with
  | zero => intro i running j h; simp [runLoop] at h
  | succ f ih =>
    intro i running j h
    cases running with
    | false => simp [runLoop] at h
    | true =>
      by_cases hI : 0 < interval
      · simp only [runLoop, if_pos hI, if_true, List.mem_cons] at h ⊢
        rcases h with h | h | h | h
        · injection h with h2; subst h2; exact .inr (.inl rfl)
        · exact Ev.noConfusion h
        · exact Ev.noConfusion h
        · exact .inr (.inr (.inr (ih (i + 1) _ j h)))
      · simp only [runLoop, if_neg hI, if_true, List.mem_cons] at h ⊢
        rcases h with h | h | h
        · injection h with h2; subst h2; exact .inr (.inl rfl)
        · exact Ev.noConfusion h
        · exact .inr (.inr (ih (i + 1) _ j h))

/-- If a signal is delivered during cycle `k` or wait `k` (so the running
flag is cleared by the end of wait `k`), then cycle `k + 1` never starts. -/
theorem runLoop_signal_stops (interval : Nat) (sigC sigW : Nat → Bool)
    (hI : 0 < interval) (k : Nat) (hsig : (!sigC k && !sigW k) = false) :
    ∀ (fuel i : Nat) (running : Bool),
      Ev.wait k ∈ (runLoop interval sigC sigW fuel i running).1 →
      Ev.start (k + 1) ∉ (runLoop interval sigC sigW fuel i running).1 := by
  intro fuel
  induction fuel with
  | zero => intro i running hw; simp [runLoop] at hw
  | succ f ih =>
    intro i running hw hst
    cases running with
    | false => simp [runLoop] at hw
    | true =>
      simp only [runLoop, if_pos hI, if_true, List.mem_cons] at hw hst
      rcases hw with hw | hw | hw | hw
      · exact Ev.noConfusion hw
      · exact Ev.noConfusion hw
      · injection hw with hki
        subst hki
        rw [hsig, runLoop_not_running] at hst
        rcases hst with h | h | h | h
        · injection h with h2; omega
        · exact Ev.noConfusion h
        · exact Ev.noConfusion h
        · simp at h
      · have hk := runLoop_idx_ge interval sigC sigW f (i + 1) _ _ hw
        simp only [evIdx] at hk
        rcases hst with h | h | h | h
        · injection h with h2; omega
        · exact Ev.noConfusion h
        · exact Ev.noConfusion h
        · exact ih (i + 1) _ hw h

/-- With a positive interval and no signal, the loop strictly alternates
cycle and wait phases until fuel runs out (the loop never exits by
itself). -/
theorem runLoop_no_signal_alternates (interval : Nat) (hI : 0 < interval) :
    ∀ (fuel i : Nat),
      runLoop interval noSig noSig fuel i true =
        ((List.range' i fuel).flatMap
           fun j => [Ev.start j, Ev.fin j, Ev.wait j],
         false) := by
  intro fuel
  induction fuel with
  | zero => intro i; simp [runLoop, List.range']
  | succ f ih =>
    intro i
    simp only [runLoop, if_pos hI, if_true, noSig, Bool.not_false,
      Bool.and_self]
    rw [ih (i + 1)]
    simp [List.range'_succ, List.flatMap_cons]

/-- Claim C8 (confirmed): with a collection interval of 0, the run loop
performs exactly one collection cycle (start 0 / fin 0), never emits a
wait (no sleep), and terminates: the loop exits through its own condition
(the stopped flag is `true`), independently of fuel and of any signal
schedule. -/
theorem c8_zero_interval_one_cycle (sigC sigW : Nat → Bool) (fuel : Nat)
    (h : 1 ≤ fuel) :
    runService 0 sigC sigW fuel = ([Ev.start 0, Ev.fin 0], true) := by
  obtain ⟨f, rfl⟩ : ∃ f, fuel = f + 1 := ⟨fuel - 1, by omega⟩
  simp [runService, runLoop, runLoop_not_running]

/-- Witness for the C8 theorem at a concrete fuel. -/
theorem c8_zero_interval_one_cycle_witness :
    runService 0 noSig noSig 3 = ([Ev.start 0, Ev.fin 0], true) :=
  c8_zero_interval_one_cycle noSig noSig 3 (by decide)

/-- Claim C9 (confirmed): with a positive interval, (1) every cycle that
starts also finishes — a shutdown signal never aborts the cycle in
progress; (2) a shutdown signal observed during cycle `k` or during wait
`k` prevents cycle `k + 1` from ever starting; (3) with no signal the loop
strictly alternates cycle and wait phases. -/
theorem c9_positive_interval_shutdown (interval : Nat)
    (sigC sigW : Nat → Bool) (fuel : Nat) (hI : 0 < interval) :
    (∀ j, Ev.start j ∈ (runService interval sigC sigW fuel).1 →
        Ev.fin j ∈ (runService interval sigC sigW fuel).1) ∧
    (∀ k, Ev.wait k ∈ (runService interval sigC sigW fuel).1 →
        (sigC k = true ∨ sigW k = true) →
        Ev.start (k + 1) ∉ (runService interval sigC sigW fuel).1) ∧
    runService interval noSig noSig fuel =
      ((List.range fuel).flatMap fun j => [Ev.start j, Ev.fin j, Ev.wait j],
       false) := by
  refine ⟨?_, ?_, ?_⟩
  · intro j h
    exact runLoop_start_fin interval sigC sigW fuel 0 true j h
  · intro k hw hsig
    have hb : (!sigC k && !sigW k) = false := by
      rcases hsig with h | h <;> simp [h]
    exact runLoop_signal_stops interval sigC sigW hI k hb fuel 0 true hw
  · unfold runService
    rw [runLoop_no_signal_alternates interval hI fuel 0,
      List.range_eq_range']

/-- Witness for the C9 theorem at a concrete input: interval 1, one signal
during wait 0, fuel 5 — cycle 1 never starts. -/
theorem c9_positive_interval_shutdown_witness :
    Ev.start 1 ∉ (runService 1 noSig sigW0 5).1 :=
  (c9_positive_interval_shutdown 1 noSig sigW0 5 (by decide)).2.1 0
    (by decide) (Or.inr (by decide))
